import Mathlib

/-!
Shallow embedding of src/utils.rs of arp-scan-rs: default-interface
selection, network sizing, scan-result table rendering and JSON/YAML/CSV
export. Machine integers (u8, u32, usize, u128) are modelled as Nat, with
an explicit reduction mod 2 ^ 128 where the u128 accumulator could wrap.
Process termination via exit(1) plus an stderr diagnostic is modelled as
an error value carrying the exit code and the diagnostic text.
-/

/-- Hexadecimal digit character (lowercase), as used by the Display
implementation of MAC addresses and by serde_json control escapes. -/
def hexDigit (n : Nat) : Char :=
  if n < 10 then Char.ofNat (48 + n) else Char.ofNat (87 + n)

/-- Two lowercase hex digits of a byte, one octet of a MAC address
rendered with the 02x format. -/
def hexByte (n : Nat) : String :=
  String.mk [hexDigit (n % 256 / 16), hexDigit (n % 16)]

/-- Decimal digit character. -/
def decDigit (n : Nat) : Char := Char.ofNat (48 + n)

/-- Decimal rendering of one IPv4 octet (value taken mod 256). -/
def octetStr (v : Nat) : String :=
  let n := v % 256
  if n < 10 then String.mk [decDigit n]
  else if n < 100 then String.mk [decDigit (n / 10), decDigit (n % 10)]
  else String.mk [decDigit (n / 100), decDigit (n / 10 % 10), decDigit (n % 10)]

/-- Modelled external collaborator (std::net::Ipv4Addr): a u32 address
value displayed as a dotted decimal quad. -/
def ipv4Show (n : Nat) : String :=
  let v := n % 2 ^ 32
  octetStr (v / 2 ^ 24) ++ "." ++ octetStr (v / 2 ^ 16 % 256) ++ "." ++
    octetStr (v / 2 ^ 8 % 256) ++ "." ++ octetStr (v % 256)

/-- Modelled external collaborator (pnet MacAddr): six octets, displayed
as colon-separated lowercase hex byte pairs. -/
structure MacAddr where
  a : Nat
  b : Nat
  c : Nat
  d : Nat
  e : Nat
  f : Nat
  deriving DecidableEq

/-- Display of a MAC address, 02x per octet joined by colons. -/
def macShow (m : MacAddr) : String :=
  hexByte m.a ++ ":" ++ hexByte m.b ++ ":" ++ hexByte m.c ++ ":" ++
    hexByte m.d ++ ":" ++ hexByte m.e ++ ":" ++ hexByte m.f

/-- Modelled external collaborator (ipnetwork::IpNetwork): an address plus
a prefix length, IPv4 or IPv6 variant; the crate guarantees the prefix
bound at construction. -/
inductive IpNetwork where
  | v4 (addr : Nat) (prefixLen : Fin 33)
  | v6 (addr : Nat) (prefixLen : Fin 129)
  deriving DecidableEq

/-- Modelled external collaborator (ipnetwork::NetworkSize): address-space
size of a network, a u32-backed count for IPv4 and a u128 count for IPv6. -/
inductive NetworkSize where
  | V4 (size : Nat)
  | V6 (size : Nat)
  deriving DecidableEq

/-- Modelled external collaborator: IpNetwork::size, the number of
addresses covered by the network, 2 ^ (bits - prefix). -/
def ipNetworkSize : IpNetwork → NetworkSize
  | .v4 _ p => .V4 (2 ^ (32 - p.val))
  | .v6 _ p => .V6 (2 ^ (128 - p.val))

/-- Whether the network is the IPv6 variant. -/
def isV6 : IpNetwork → Bool
  | .v4 _ _ => false
  | .v6 _ _ => true

/-- Modelled external collaborator (pnet IpNetwork::is_ipv4). -/
def isIpv4Net : IpNetwork → Bool
  | .v4 _ _ => true
  | .v6 _ _ => false

/-- Modelled external collaborator (pnet_datalink::NetworkInterface): the
fields this layer reads, with is_up and is_loopback flag checks modelled
as boolean fields. -/
structure NetworkInterface where
  name : String
  mac : Option MacAddr
  ips : List IpNetwork
  isUp : Bool
  isLoopback : Bool
  deriving DecidableEq

/-- The qualification closure inside select_default_interface, with its
early returns rendered as nested conditionals (src/utils.rs lines 69-85). -/
def qualifies (i : NetworkInterface) : Bool :=
  if i.mac.isNone then false
  else if i.ips.isEmpty || !i.isUp || i.isLoopback then false
  else if (i.ips.find? isIpv4Net).isNone then false
  else true

/-- select_default_interface (src/utils.rs lines 67-88): first interface
satisfying the qualification closure, cloned (the clone is the identity
in this embedding). -/
def select_default_interface (interfaces : List NetworkInterface) :
    Option NetworkInterface :=
  interfaces.find? qualifies

/-- The fold inside compute_network_size, one step per network, in list
order. Hitting an IPv6 network terminates the process: exit status 1 after
the stderr diagnostic, modelled as the error case. The u128 accumulator is
reduced mod 2 ^ 128. -/
def computeNetworkSizeAux (acc : Nat) : List IpNetwork → Except (Nat × String) Nat
  | [] => .ok acc
  | n :: rest =>
    match ipNetworkSize n with
    | .V4 s => computeNetworkSizeAux ((acc + s) % 2 ^ 128) rest
    | .V6 _ => .error (1, "IPv6 networks are not supported by the ARP protocol")

/-- compute_network_size (src/utils.rs lines 116-129): total size of the
given networks, folding from 0. -/
def compute_network_size (ip_networks : List IpNetwork) : Except (Nat × String) Nat :=
  computeNetworkSizeAux 0 ip_networks

/-- ScanOptions (crate::args): the single field this layer reads. -/
structure ScanOptions where
  resolve_hostname : Bool
  deriving DecidableEq

/-- ResponseSummary (crate::network): packet_count and arp_count are
usize, duration_ms is u128. -/
structure ResponseSummary where
  packet_count : Nat
  arp_count : Nat
  duration_ms : Nat
  deriving DecidableEq

/-- TargetDetails (crate::network): one discovered host; ipv4 models the
u32 value of the address. -/
structure TargetDetails where
  ipv4 : Nat
  mac : MacAddr
  hostname : Option String
  vendor : Option String
  deriving DecidableEq

/-- Stable insertion of a target into a list already sorted ascending by
ipv4: the inserted element goes before the first strictly-greater-or-equal
key it does not precede, keeping equal keys in arrival order. -/
def insertByIpv4 (a : TargetDetails) : List TargetDetails → List TargetDetails
  | [] => [a]
  | b :: t => if a.ipv4 ≤ b.ipv4 then a :: b :: t else b :: insertByIpv4 a t

/-- The sort_by_key(|item| item.ipv4) call shared by display and export:
a stable sort ascending by ipv4, realized as stable insertion sort
(extensionally the same list as the standard library stable sort). -/
def sortTargets : List TargetDetails → List TargetDetails
  | [] => []
  | x :: xs => insertByIpv4 x (sortTargets xs)

/-- Right-pad with spaces to a minimum width, never truncating: the
left-aligned minimum-width format directive. -/
def padRight (s : String) (w : Nat) : String :=
  s ++ String.mk (List.replicate (w - s.length) ' ')

/-- A run of dashes, the dash-fill format directive applied to "". -/
def dashes (w : Nat) : String := String.mk (List.replicate w '-')

/-- The hostname column width loop of display_scan_results (src/utils.rs
lines 139-147): starts at 15, raised to any longer present hostname. -/
def hostnameLenFold (targets : List TargetDetails) : Nat :=
  targets.foldl (fun acc detail =>
    match detail.hostname with
    | some h => if h.length > acc then h.length else acc
    | none => acc) 15

/-- The vendor column width loop of display_scan_results (src/utils.rs
lines 149-153): starts at 15, raised to any longer present vendor. -/
def vendorLenFold (targets : List TargetDetails) : Nat :=
  targets.foldl (fun acc detail =>
    match detail.vendor with
    | some v => if v.length > acc then v.length else acc
    | none => acc) 15

/-- Hostname cell text of a result row (src/utils.rs lines 164-168). -/
def hostnameCell (detail : TargetDetails) (options : ScanOptions) : String :=
  match detail.hostname with
  | some h => h
  | none => if !options.resolve_hostname then "(disabled)" else ""

/-- Vendor cell text of a result row (src/utils.rs lines 169-172). -/
def vendorCell (detail : TargetDetails) : String :=
  match detail.vendor with
  | some v => v
  | none => ""

/-- Header row of the results table (src/utils.rs line 158). -/
def headerRow (hostnameLen vendorLen : Nat) : String :=
  "| IPv4            | MAC               | " ++ padRight "Hostname" hostnameLen ++
    " | " ++ padRight "Vendor" vendorLen ++ " |"

/-- Separator row of the results table (src/utils.rs line 159). -/
def separatorRow (hostnameLen vendorLen : Nat) : String :=
  "|-----------------|-------------------|-" ++ dashes hostnameLen ++
    "-|-" ++ dashes vendorLen ++ "-|"

/-- One data row of the results table (src/utils.rs line 173). -/
def dataRow (hostnameLen vendorLen : Nat) (options : ScanOptions)
    (detail : TargetDetails) : String :=
  "| " ++ padRight (ipv4Show detail.ipv4) 15 ++ " | " ++
    padRight (macShow detail.mac) 18 ++ " | " ++
    padRight (hostnameCell detail options) hostnameLen ++ " | " ++
    padRight (vendorCell detail) vendorLen ++ " |"

/-- Modelled external collaborator (ansi_term Red.paint): the text wrapped
in the red-foreground escape and the reset escape. -/
def paintRed (s : String) : String := "\x1b[31m" ++ s ++ "\x1b[0m"

/-- Host-count phrase of display_scan_results (src/utils.rs lines 179-183):
the zero case is painted red. -/
def hostCountText (n : Nat) : String :=
  match n with
  | 0 => paintRed "no hosts found"
  | 1 => "1 host found"
  | k => Nat.repr k ++ " hosts found"

/-- Packet-count phrase of display_scan_results (src/utils.rs lines
187-191), each branch carrying its trailing comma-space. -/
def packetCountText (n : Nat) : String :=
  match n with
  | 0 => "No packets received, "
  | 1 => "1 packet received, "
  | k => Nat.repr k ++ " packets received, "

/-- ARP-count phrase of display_scan_results (src/utils.rs lines 192-196). -/
def arpCountText (n : Nat) : String :=
  match n with
  | 0 => "no ARP packets filtered"
  | 1 => "1 ARP packet filtered"
  | k => Nat.repr k ++ " ARP packets filtered"

/-- The second summary line of display_scan_results: the packet phrase
directly followed by the ARP phrase. -/
def countsLine (summary : ResponseSummary) : String :=
  packetCountText summary.packet_count ++ arpCountText summary.arp_count

/-- SerializableResultItem (src/utils.rs lines 200-206). -/
structure SerializableResultItem where
  ipv4 : String
  mac : String
  hostname : String
  vendor : String
  deriving DecidableEq

/-- SerializableGlobalResult (src/utils.rs lines 208-214). -/
structure SerializableGlobalResult where
  packet_count : Nat
  arp_count : Nat
  duration_ms : Nat
  results : List SerializableResultItem
  deriving DecidableEq

/-- The per-target mapping inside get_serializable_result (src/utils.rs
lines 222-242): addresses rendered as text, absent hostname or vendor
materialized as the empty string. -/
def toSerializableItem (detail : TargetDetails) : SerializableResultItem :=
  { ipv4 := ipv4Show detail.ipv4
    mac := macShow detail.mac
    hostname := match detail.hostname with
      | some h => h
      | none => ""
    vendor := match detail.vendor with
      | some v => v
      | none => "" }

/-- get_serializable_result (src/utils.rs lines 220-250). -/
def get_serializable_result (response_summary : ResponseSummary)
    (target_details : List TargetDetails) : SerializableGlobalResult :=
  { packet_count := response_summary.packet_count
    arp_count := response_summary.arp_count
    duration_ms := response_summary.duration_ms
    results := target_details.map toSerializableItem }

/-- Modelled external collaborator (serde_json): escape of one character
inside a JSON string literal. -/
def jsonEscapeChar (c : Char) : String :=
  if c = '"' then "\\\""
  else if c = '\\' then "\\\\"
  else if c = '\n' then "\\n"
  else if c = '\t' then "\\t"
  else if c = '\r' then "\\r"
  else if c.toNat = 8 then "\\b"
  else if c.toNat = 12 then "\\f"
  else if c.toNat < 32 then "\\u00" ++ String.mk [hexDigit (c.toNat / 16), hexDigit (c.toNat % 16)]
  else String.mk [c]

/-- Modelled external collaborator (serde_json): a JSON string literal. -/
def jsonStr (s : String) : String :=
  "\"" ++ String.join (s.data.map jsonEscapeChar) ++ "\""

/-- Modelled external collaborator (serde_json): one serialized
SerializableResultItem, fields in declaration order. -/
def jsonItem (i : SerializableResultItem) : String :=
  "\x7b\"ipv4\":" ++ jsonStr i.ipv4 ++ ",\"mac\":" ++ jsonStr i.mac ++
    ",\"hostname\":" ++ jsonStr i.hostname ++ ",\"vendor\":" ++ jsonStr i.vendor ++ "\x7d"

/-- Modelled external collaborator (serde_json): the serialized
SerializableGlobalResult, fields in declaration order. -/
def jsonOfGlobal (g : SerializableGlobalResult) : String :=
  "\x7b\"packet_count\":" ++ Nat.repr g.packet_count ++
    ",\"arp_count\":" ++ Nat.repr g.arp_count ++
    ",\"duration_ms\":" ++ Nat.repr g.duration_ms ++
    ",\"results\":[" ++ String.intercalate "," (g.results.map jsonItem) ++ "]\x7d"

/-- Modelled external collaborator (serde_json::to_string): total for a
structure of plain strings and unsigned integers, per the serializer
contract, so the error case is never produced. -/
def serdeJsonToString (g : SerializableGlobalResult) : Except String String :=
  .ok (jsonOfGlobal g)

/-- Modelled external collaborator (serde_yaml): one sequence entry of the
results list; string scalars are modelled in double-quoted style. -/
def yamlItem (i : SerializableResultItem) : String :=
  "- ipv4: " ++ jsonStr i.ipv4 ++ "\n  mac: " ++ jsonStr i.mac ++
    "\n  hostname: " ++ jsonStr i.hostname ++ "\n  vendor: " ++ jsonStr i.vendor ++ "\n"

/-- Modelled external collaborator (serde_yaml): the serialized
SerializableGlobalResult, a document-start marker then the mapping in
declaration order. -/
def yamlOfGlobal (g : SerializableGlobalResult) : String :=
  "---\npacket_count: " ++ Nat.repr g.packet_count ++
    "\narp_count: " ++ Nat.repr g.arp_count ++
    "\nduration_ms: " ++ Nat.repr g.duration_ms ++
    "\nresults:\n" ++ String.join (g.results.map yamlItem)

/-- Modelled external collaborator (serde_yaml::to_string): total for
this data shape, so the error case is never produced. -/
def serdeYamlToString (g : SerializableGlobalResult) : Except String String :=
  .ok (yamlOfGlobal g)

/-- Modelled external collaborator (csv crate): whether a field must be
quoted (it contains a delimiter, a quote or a line break). -/
def csvNeedsQuote (s : String) : Bool :=
  s.data.any fun c => c = ',' || c = '"' || c = '\n' || c = '\r'

/-- Modelled external collaborator (csv crate): one field, quoted with
doubled inner quotes when needed. -/
def csvField (s : String) : String :=
  if csvNeedsQuote s then
    "\"" ++ String.join (s.data.map fun c =>
      if c = '"' then "\"\"" else String.mk [c]) ++ "\""
  else s

/-- Modelled external collaborator (csv crate): the header row derived
from the SerializableResultItem field names. -/
def csvHeader : String := "ipv4,mac,hostname,vendor\n"

/-- Modelled external collaborator (csv crate): one serialized record,
fields in declaration order, newline terminated. -/
def csvRow (i : SerializableResultItem) : String :=
  csvField i.ipv4 ++ "," ++ csvField i.mac ++ "," ++
    csvField i.hostname ++ "," ++ csvField i.vendor ++ "\n"

/-- Modelled external collaborator (csv::Writer with serialize): the
header row is emitted together with the first record, so serializing no
records leaves the buffer empty. -/
def csvStringOfItems (items : List SerializableResultItem) : String :=
  match items with
  | [] => ""
  | _ => csvHeader ++ String.join (items.map csvRow)

/-- Modelled external collaborator (csv crate serialize/flush/into_inner
and String::from_utf8 combined): total for this data shape, so the error
case is never produced. -/
def csvSerializeItems (items : List SerializableResultItem) : Except String String :=
  .ok (csvStringOfItems items)

/-- Outcome of an export call: either the returned text or process
termination with an exit code and an stderr diagnostic. -/
inductive ExportOutcome where
  | text (out : String)
  | exited (code : Nat) (msg : String)
  deriving DecidableEq

/-- export_to_json (src/utils.rs lines 256-266): sort, canonicalize,
serialize; a serialization error would terminate the process. -/
def export_to_json (response_summary : ResponseSummary)
    (target_details : List TargetDetails) : ExportOutcome :=
  let sorted := sortTargets target_details
  let global_result := get_serializable_result response_summary sorted
  match serdeJsonToString global_result with
  | .ok out => .text out
  | .error err => .exited 1 ("Could not export JSON results (" ++ err ++ ")")

/-- export_to_yaml (src/utils.rs lines 272-282): sort, canonicalize,
serialize; a serialization error would terminate the process. -/
def export_to_yaml (response_summary : ResponseSummary)
    (target_details : List TargetDetails) : ExportOutcome :=
  let sorted := sortTargets target_details
  let global_result := get_serializable_result response_summary sorted
  match serdeYamlToString global_result with
  | .ok out => .text out
  | .error err => .exited 1 ("Could not export YAML results (" ++ err ++ ")")

/-- export_to_csv (src/utils.rs lines 288-315): sort, canonicalize, then
serialize only the per-target records; any writer error would terminate
the process. -/
def export_to_csv (response_summary : ResponseSummary)
    (target_details : List TargetDetails) : ExportOutcome :=
  let sorted := sortTargets target_details
  let global_result := get_serializable_result response_summary sorted
  match csvSerializeItems global_result.results with
  | .ok out => .text out
  | .error err => .exited 1 ("Could not serialize result to CSV (" ++ err ++ ")")

/-- Spec-side: the five qualifying conditions named by the specification
for default-interface selection. -/
def fiveConds (i : NetworkInterface) : Prop :=
  i.mac.isSome = true ∧ i.ips ≠ [] ∧ i.isUp = true ∧ i.isLoopback = false ∧
    ∃ ip ∈ i.ips, isIpv4Net ip = true

instance (i : NetworkInterface) : Decidable (fiveConds i) := by
  unfold fiveConds; infer_instance

/-- Spec-side: the arithmetic sum of the IPv4 address-space sizes of the
networks in a list (only meaningful when no entry is IPv6). -/
def sumOfV4Sizes (l : List IpNetwork) : Nat :=
  (l.map fun n =>
    match n with
    | .v4 _ p => 2 ^ (32 - p.val)
    | .v6 _ _ => 0).sum

/-- Spec-side: length of the longest present hostname in a target list
(0 when none is present). -/
def longestHostname (targets : List TargetDetails) : Nat :=
  ((targets.filterMap TargetDetails.hostname).map String.length).foldr max 0

/-- Spec-side: length of the longest present vendor in a target list
(0 when none is present). -/
def longestVendor (targets : List TargetDetails) : Nat :=
  ((targets.filterMap TargetDetails.vendor).map String.length).foldr max 0

/-- First-match decomposition of List.find?: a found element satisfies the
predicate and everything before it fails it. -/
theorem findSplit {α : Type} (p : α → Bool) :
    ∀ (l : List α) (a : α), l.find? p = some a →
      p a = true ∧ ∃ pre post, l = pre ++ a :: post ∧ ∀ x ∈ pre, p x = false := by
  intro l
  induction l with
  | nil => intro a h; simp at h
  | cons x t ih =>
    intro a h
    cases hp : p x with
    | true =>
      simp only [List.find?, hp] at h
      cases h
      exact ⟨hp, [], t, rfl, by simp⟩
    | false =>
      simp only [List.find?, hp] at h
      obtain ⟨hpa, pre, post, heq, hpre⟩ := ih a h
      refine ⟨hpa, x :: pre, post, by rw [heq]; rfl, fun y hy => ?_⟩
      rcases List.mem_cons.mp hy with rfl | hy
      · exact hp
      · exact hpre y hy

/-- The inner IPv4 lookup of the qualification closure succeeds exactly
when some assigned IP is IPv4. -/
theorem findIpv4Exists (l : List IpNetwork) :
    (l.find? isIpv4Net).isNone = false ↔ ∃ ip ∈ l, isIpv4Net ip = true := by
  rcases h : l.find? isIpv4Net with _ | ip
  · constructor
    · intro hf; exact absurd hf (by simp)
    · rintro ⟨ip, hip, hv⟩
      exact absurd hv (by simpa using List.find?_eq_none.mp h ip hip)
  · constructor
    · intro _; exact ⟨ip, List.mem_of_find?_eq_some h, List.find?_some h⟩
    · intro _; rfl

/-- The qualification closure holds exactly when the five spec conditions
hold. -/
theorem qualifies_iff (i : NetworkInterface) : qualifies i = true ↔ fiveConds i := by
  obtain ⟨nm, mc, ips, up, lo⟩ := i
  rcases mc with _ | m
  · simp [qualifies, fiveConds]
  · rcases up <;> rcases lo <;> simp [qualifies, fiveConds, findIpv4Exists]

/-- Any IPv6 entry anywhere in the list makes the size fold terminate the
process with status 1 and the unsupported-IPv6 diagnostic. -/
theorem computeAux_error_of_v6 :
    ∀ (l : List IpNetwork) (acc : Nat), (∃ n ∈ l, isV6 n = true) →
      computeNetworkSizeAux acc l =
        .error (1, "IPv6 networks are not supported by the ARP protocol") := by
  intro l
  induction l with
  | nil => intro acc h; simp at h
  | cons x t ih =>
    intro acc h
    cases x with
    | v4 a p =>
      have hex : ∃ n ∈ t, isV6 n = true := by
        obtain ⟨n, hn, hv⟩ := h
        rcases List.mem_cons.mp hn with rfl | hn
        · simp [isV6] at hv
        · exact ⟨n, hn, hv⟩
      simp only [computeNetworkSizeAux, ipNetworkSize]
      exact ih _ hex
    | v6 a p =>
      simp [computeNetworkSizeAux, ipNetworkSize]

/-- On an IPv6-free list the size fold accumulates the arithmetic sum of
the IPv4 sizes, reduced mod 2 ^ 128. -/
theorem computeAux_sum :
    ∀ (l : List IpNetwork) (acc : Nat), acc < 2 ^ 128 → (∀ n ∈ l, isV6 n = false) →
      computeNetworkSizeAux acc l = .ok ((acc + sumOfV4Sizes l) % 2 ^ 128) := by
  intro l
  induction l with
  | nil =>
    intro acc hlt h
    simp only [computeNetworkSizeAux, sumOfV4Sizes, List.map_nil, List.sum_nil,
      Nat.add_zero]
    rw [Nat.mod_eq_of_lt hlt]
  | cons x t ih =>
    intro acc hlt h
    cases x with
    | v4 a p =>
      simp only [computeNetworkSizeAux, ipNetworkSize]
      rw [ih ((acc + 2 ^ (32 - p.val)) % 2 ^ 128)
            (Nat.mod_lt _ (Nat.two_pow_pos 128))
            (fun n hn => h n (List.mem_cons_of_mem _ hn))]
      congr 1
      rw [Nat.mod_add_mod, Nat.add_assoc]
      simp [sumOfV4Sizes]
    | v6 a p =>
      exact absurd (h _ (List.mem_cons_self _ _)) (by simp [isV6])

/-- C1: for every list of IP networks containing at least one IPv6
network, compute_network_size terminates the process with exit status 1
after emitting the diagnostic that IPv6 is unsupported by the ARP
protocol, regardless of the position of the IPv6 entry in the list. -/
theorem compute_network_size_ipv6_fatal (l : List IpNetwork)
    (h : ∃ n ∈ l, isV6 n = true) :
    compute_network_size l =
      .error (1, "IPv6 networks are not supported by the ARP protocol") :=
  computeAux_error_of_v6 l 0 h

/-- Witness for C1: a list whose IPv6 entry sits in the middle. -/
theorem compute_network_size_ipv6_fatal_witness :
    compute_network_size [IpNetwork.v4 0 24, IpNetwork.v6 0 64, IpNetwork.v4 0 30]
      = Except.error (1, "IPv6 networks are not supported by the ARP protocol") :=
  compute_network_size_ipv6_fatal _ (by decide)

/-- C4: for every list of IP networks with no IPv6 entry whose total fits
the u128 accumulator, compute_network_size returns exactly the arithmetic
sum of the IPv4 address-space sizes of the networks in the list. -/
theorem compute_network_size_ipv4_sum (l : List IpNetwork)
    (hv : ∀ n ∈ l, isV6 n = false) (hfit : sumOfV4Sizes l < 2 ^ 128) :
    compute_network_size l = .ok (sumOfV4Sizes l) := by
  unfold compute_network_size
  rw [computeAux_sum l 0 (Nat.two_pow_pos 128) hv]
  rw [Nat.zero_add, Nat.mod_eq_of_lt hfit]

/-- Witness for C4: two /30 networks give 4 + 4 = 8, and the empty list
gives 0. -/
theorem compute_network_size_ipv4_sum_witness :
    compute_network_size [IpNetwork.v4 0 30, IpNetwork.v4 0 30] = Except.ok 8 ∧
      compute_network_size [] = Except.ok 0 :=
  ⟨compute_network_size_ipv4_sum [IpNetwork.v4 0 30, IpNetwork.v4 0 30]
      (by decide) (by decide),
    compute_network_size_ipv4_sum [] (by decide) (by decide)⟩

/-- C2: select_default_interface returns the first interface in input
order satisfying the five spec conditions (hardware address present, at
least one IP, administratively up, not loopback, at least one IPv4 among
its IPs), and returns none exactly when no interface satisfies all five. -/
theorem select_default_interface_first_match (l : List NetworkInterface) :
    (∀ i, select_default_interface l = some i →
        fiveConds i ∧ ∃ pre post, l = pre ++ i :: post ∧ ∀ j ∈ pre, ¬ fiveConds j)
    ∧ (select_default_interface l = none ↔ ∀ i ∈ l, ¬ fiveConds i) := by
  constructor
  · intro i h
    obtain ⟨hq, pre, post, heq, hpre⟩ := findSplit qualifies l i h
    refine ⟨(qualifies_iff i).mp hq, pre, post, heq, fun j hj hf => ?_⟩
    have := hpre j hj
    rw [(qualifies_iff j).mpr hf] at this
    exact Bool.noConfusion this
  · constructor
    · intro h i hi hf
      exact absurd ((qualifies_iff i).mpr hf) (List.find?_eq_none.mp h i hi)
    · intro h
      exact List.find?_eq_none.mpr fun i hi hq => h i hi ((qualifies_iff i).mp hq)

/-- Witness for C2: a loopback interface listed first is skipped and the
fully-qualifying interface after it is chosen. -/
theorem select_default_interface_first_match_witness :
    fiveConds ⟨"eth0", some ⟨1, 2, 3, 4, 5, 6⟩, [IpNetwork.v4 0 24], true, false⟩ ∧
      ∃ pre post,
        ([⟨"lo", some ⟨0, 0, 0, 0, 0, 0⟩, [IpNetwork.v4 0 8], true, true⟩,
          ⟨"eth0", some ⟨1, 2, 3, 4, 5, 6⟩, [IpNetwork.v4 0 24], true, false⟩] :
            List NetworkInterface) =
          pre ++ (⟨"eth0", some ⟨1, 2, 3, 4, 5, 6⟩, [IpNetwork.v4 0 24], true, false⟩ :
            NetworkInterface) :: post ∧
        ∀ j ∈ pre, ¬ fiveConds j :=
  (select_default_interface_first_match _).1 _ (by decide)

/-- Stable insertion permutes to consing. -/
theorem insertByIpv4_perm (a : TargetDetails) (l : List TargetDetails) :
    (insertByIpv4 a l).Perm (a :: l) := by
  induction l with
  | nil => simp [insertByIpv4]
  | cons b t ih =>
    unfold insertByIpv4
    by_cases h : a.ipv4 ≤ b.ipv4
    · simp [h]
    · simp only [if_neg h]
      exact (ih.cons b).trans (List.Perm.swap a b t)

/-- The sort permutes its input. -/
theorem sortTargets_perm (l : List TargetDetails) : (sortTargets l).Perm l := by
  induction l with
  | nil => simp [sortTargets]
  | cons x xs ih =>
    exact (insertByIpv4_perm x (sortTargets xs)).trans (ih.cons x)

/-- Stable insertion preserves ascending ipv4 order. -/
theorem insertByIpv4_pairwise (a : TargetDetails) (l : List TargetDetails)
    (h : l.Pairwise fun x y => x.ipv4 ≤ y.ipv4) :
    (insertByIpv4 a l).Pairwise fun x y => x.ipv4 ≤ y.ipv4 := by
  induction l with
  | nil => simp [insertByIpv4]
  | cons b t ih =>
    unfold insertByIpv4
    rcases List.pairwise_cons.mp h with ⟨hb, ht⟩
    by_cases hab : a.ipv4 ≤ b.ipv4
    · simp only [if_pos hab]
      refine List.pairwise_cons.mpr ⟨?_, h⟩
      intro y hy
      rcases List.mem_cons.mp hy with rfl | hy
      · exact hab
      · exact le_trans hab (hb y hy)
    · simp only [if_neg hab]
      refine List.pairwise_cons.mpr ⟨?_, ih ht⟩
      intro y hy
      have hmem := (insertByIpv4_perm a t).mem_iff.mp hy
      rcases List.mem_cons.mp hmem with rfl | hmem2
      · exact Nat.le_of_not_le hab
      · exact hb y hmem2

/-- The sorted list is ascending by ipv4. -/
theorem sortTargets_pairwise (l : List TargetDetails) :
    (sortTargets l).Pairwise fun x y => x.ipv4 ≤ y.ipv4 := by
  induction l with
  | nil => simp [sortTargets]
  | cons x xs ih => exact insertByIpv4_pairwise x (sortTargets xs) ih

/-- Weak ascending order plus pairwise-distinct keys gives strict order. -/
theorem pairwise_lt_of_nodup (l : List TargetDetails)
    (h : l.Pairwise fun x y => x.ipv4 ≤ y.ipv4)
    (hd : (l.map TargetDetails.ipv4).Nodup) :
    l.Pairwise fun x y => x.ipv4 < y.ipv4 := by
  have hne : l.Pairwise fun x y => x.ipv4 ≠ y.ipv4 := List.pairwise_map.mp hd
  exact (h.and hne).imp fun hx => lt_of_le_of_ne hx.1 hx.2

/-- Two permuted strictly-ascending lists are equal. -/
theorem sorted_lt_unique (l m : List TargetDetails) (p : l.Perm m)
    (hl : l.Pairwise fun x y => x.ipv4 < y.ipv4)
    (hm : m.Pairwise fun x y => x.ipv4 < y.ipv4) : l = m := by
  haveI : IsAntisymm TargetDetails (fun x y => x.ipv4 < y.ipv4) :=
    ⟨fun a b h1 h2 => absurd h2 (Nat.lt_asymm h1)⟩
  exact List.eq_of_perm_of_sorted p hl hm

/-- With pairwise-distinct ipv4 keys, sorting is order-insensitive. -/
theorem sortTargets_eq_of_perm (t u : List TargetDetails) (hp : t.Perm u)
    (hd : (t.map TargetDetails.ipv4).Nodup) : sortTargets t = sortTargets u := by
  have h1 := sortTargets_perm t
  have h2 := sortTargets_perm u
  have hperm : (sortTargets t).Perm (sortTargets u) := (h1.trans hp).trans h2.symm
  have hd1 : ((sortTargets t).map TargetDetails.ipv4).Nodup := ((h1.map _).nodup_iff).mpr hd
  have hd2 : ((sortTargets u).map TargetDetails.ipv4).Nodup := ((hperm.map _).nodup_iff).mp hd1
  exact sorted_lt_unique _ _ hperm
    (pairwise_lt_of_nodup _ (sortTargets_pairwise t) hd1)
    (pairwise_lt_of_nodup _ (sortTargets_pairwise u) hd2)

/-- C3 counterexample: two targets sharing one IPv4 address but with
different MAC addresses; swapping the input order changes the JSON output,
because the stable sort keeps equal keys in arrival order. The claim that
export order is independent of the input order is therefore false as
stated. -/
theorem export_order_counterexample :
    List.Perm
        [(⟨7, ⟨1, 0, 0, 0, 0, 0⟩, none, none⟩ : TargetDetails),
          ⟨7, ⟨2, 0, 0, 0, 0, 0⟩, none, none⟩]
        [⟨7, ⟨2, 0, 0, 0, 0, 0⟩, none, none⟩,
          ⟨7, ⟨1, 0, 0, 0, 0, 0⟩, none, none⟩]
    ∧ export_to_json ⟨0, 0, 0⟩
        [⟨7, ⟨1, 0, 0, 0, 0, 0⟩, none, none⟩, ⟨7, ⟨2, 0, 0, 0, 0, 0⟩, none, none⟩]
      ≠ export_to_json ⟨0, 0, 0⟩
        [⟨7, ⟨2, 0, 0, 0, 0, 0⟩, none, none⟩, ⟨7, ⟨1, 0, 0, 0, 0, 0⟩, none, none⟩] := by
  constructor
  · decide
  · decide

/-- C3 (amended): all three exports serialize the identical record
sequence, namely the input sorted ascending by ipv4 and canonicalized;
whenever the targets carry pairwise-distinct IPv4 addresses this sequence,
and hence every output, is independent of the input order (with duplicate
addresses the stable sort keeps arrival order, so outputs may depend on
it). -/
theorem export_order_amended (s : ResponseSummary) (t u : List TargetDetails)
    (hp : t.Perm u) (hd : (t.map TargetDetails.ipv4).Nodup) :
    export_to_json s t = ExportOutcome.text (jsonOfGlobal
        ⟨s.packet_count, s.arp_count, s.duration_ms, (sortTargets t).map toSerializableItem⟩)
    ∧ export_to_yaml s t = ExportOutcome.text (yamlOfGlobal
        ⟨s.packet_count, s.arp_count, s.duration_ms, (sortTargets t).map toSerializableItem⟩)
    ∧ export_to_csv s t = ExportOutcome.text (csvStringOfItems
        ((sortTargets t).map toSerializableItem))
    ∧ ((sortTargets t).Pairwise fun x y => x.ipv4 ≤ y.ipv4)
    ∧ (sortTargets t).Perm t
    ∧ export_to_json s t = export_to_json s u
    ∧ export_to_yaml s t = export_to_yaml s u
    ∧ export_to_csv s t = export_to_csv s u := by
  have hsort := sortTargets_eq_of_perm t u hp hd
  refine ⟨rfl, rfl, rfl, sortTargets_pairwise t, sortTargets_perm t, ?_, ?_, ?_⟩ <;>
    simp [export_to_json, export_to_yaml, export_to_csv, hsort]

/-- Witness for C3: a two-element list with distinct IPv4 addresses
exported equal to its reversal in all three formats. -/
theorem export_order_amended_witness :
    export_to_json ⟨1, 1, 10⟩
        [⟨5, ⟨1, 0, 0, 0, 0, 0⟩, none, none⟩, ⟨3, ⟨2, 0, 0, 0, 0, 0⟩, none, none⟩]
      = export_to_json ⟨1, 1, 10⟩
        [⟨3, ⟨2, 0, 0, 0, 0, 0⟩, none, none⟩, ⟨5, ⟨1, 0, 0, 0, 0, 0⟩, none, none⟩]
    ∧ export_to_yaml ⟨1, 1, 10⟩
        [⟨5, ⟨1, 0, 0, 0, 0, 0⟩, none, none⟩, ⟨3, ⟨2, 0, 0, 0, 0, 0⟩, none, none⟩]
      = export_to_yaml ⟨1, 1, 10⟩
        [⟨3, ⟨2, 0, 0, 0, 0, 0⟩, none, none⟩, ⟨5, ⟨1, 0, 0, 0, 0, 0⟩, none, none⟩]
    ∧ export_to_csv ⟨1, 1, 10⟩
        [⟨5, ⟨1, 0, 0, 0, 0, 0⟩, none, none⟩, ⟨3, ⟨2, 0, 0, 0, 0, 0⟩, none, none⟩]
      = export_to_csv ⟨1, 1, 10⟩
        [⟨3, ⟨2, 0, 0, 0, 0, 0⟩, none, none⟩, ⟨5, ⟨1, 0, 0, 0, 0, 0⟩, none, none⟩] :=
  (export_order_amended ⟨1, 1, 10⟩
      [⟨5, ⟨1, 0, 0, 0, 0, 0⟩, none, none⟩, ⟨3, ⟨2, 0, 0, 0, 0, 0⟩, none, none⟩]
      [⟨3, ⟨2, 0, 0, 0, 0, 0⟩, none, none⟩, ⟨5, ⟨1, 0, 0, 0, 0, 0⟩, none, none⟩]
      (by decide) (by decide)).2.2.2.2.2

/-- C5 counterexample: a target whose resolved hostname is itself the
literal text "(disabled)" makes the hostname cell show "(disabled)" even
though the hostname is present and resolution is enabled, so the
"exactly when absent and resolution disabled" biconditional fails. -/
theorem hostname_cell_counterexample :
    ¬ (hostnameCell ⟨0, ⟨0, 0, 0, 0, 0, 0⟩, some "(disabled)", none⟩ ⟨true⟩ = "(disabled)"
        ↔ ((⟨0, ⟨0, 0, 0, 0, 0, 0⟩, some "(disabled)", none⟩ : TargetDetails).hostname = none
            ∧ (⟨true⟩ : ScanOptions).resolve_hostname = false)) := by
  decide

/-- C5 (amended): the hostname cell shows "(disabled)" when the hostname
is absent and resolution is disabled, is empty when the hostname is absent
and resolution is enabled, and shows the hostname text verbatim when
present (which may itself equal "(disabled)"); the vendor cell shows the
vendor text if present and is empty otherwise, with no "(disabled)" case. -/
theorem hostname_vendor_cell_cases (d : TargetDetails) (o : ScanOptions) :
    (∀ h, d.hostname = some h → hostnameCell d o = h)
    ∧ (d.hostname = none → o.resolve_hostname = false → hostnameCell d o = "(disabled)")
    ∧ (d.hostname = none → o.resolve_hostname = true → hostnameCell d o = "")
    ∧ (∀ v, d.vendor = some v → vendorCell d = v)
    ∧ (d.vendor = none → vendorCell d = "") := by
  refine ⟨?_, ?_, ?_, ?_, ?_⟩
  · intro h hh; simp [hostnameCell, hh]
  · intro hn hr; simp [hostnameCell, hn, hr]
  · intro hn hr; simp [hostnameCell, hn, hr]
  · intro v hv; simp [vendorCell, hv]
  · intro hn; simp [vendorCell, hn]

/-- Witness for C5: with no hostname and resolution disabled the cell
reads "(disabled)". -/
theorem hostname_vendor_cell_cases_witness :
    hostnameCell ⟨1, ⟨0, 0, 0, 0, 0, 0⟩, none, none⟩ ⟨false⟩ = "(disabled)" :=
  (hostname_vendor_cell_cases ⟨1, ⟨0, 0, 0, 0, 0, 0⟩, none, none⟩ ⟨false⟩).2.1 rfl rfl

/-- C9: the host, packet and ARP counters each produce exactly three
phrase forms at the 0/1/N boundaries (the empty-result host phrase is
wrapped in red highlighting), and the packet and ARP phrases are joined
by a comma into the second summary line. -/
theorem pluralization_phrases :
    hostCountText 0 = paintRed "no hosts found"
    ∧ hostCountText 1 = "1 host found"
    ∧ (∀ n, 2 ≤ n → hostCountText n = Nat.repr n ++ " hosts found")
    ∧ packetCountText 0 = "No packets received" ++ ", "
    ∧ packetCountText 1 = "1 packet received" ++ ", "
    ∧ (∀ n, 2 ≤ n → packetCountText n = Nat.repr n ++ " packets received" ++ ", ")
    ∧ arpCountText 0 = "no ARP packets filtered"
    ∧ arpCountText 1 = "1 ARP packet filtered"
    ∧ (∀ n, 2 ≤ n → arpCountText n = Nat.repr n ++ " ARP packets filtered")
    ∧ ∀ s : ResponseSummary,
        countsLine s = packetCountText s.packet_count ++ arpCountText s.arp_count := by
  refine ⟨rfl, rfl, ?_, by decide, by decide, ?_, rfl, rfl, ?_, fun s => rfl⟩
  · intro n hn
    obtain ⟨k, rfl⟩ : ∃ k, n = k + 2 := ⟨n - 2, by omega⟩
    rfl
  · intro n hn
    obtain ⟨k, rfl⟩ : ∃ k, n = k + 2 := ⟨n - 2, by omega⟩
    show Nat.repr (k + 2) ++ " packets received, "
      = Nat.repr (k + 2) ++ " packets received" ++ ", "
    rw [String.append_assoc]
    exact congrArg (fun x => Nat.repr (k + 2) ++ x) (by decide)
  · intro n hn
    obtain ⟨k, rfl⟩ : ∃ k, n = k + 2 := ⟨n - 2, by omega⟩
    rfl

/-- Witness for C9: the three plural forms at counts 5, 2 and 3. -/
theorem pluralization_phrases_witness :
    hostCountText 5 = Nat.repr 5 ++ " hosts found"
    ∧ packetCountText 2 = Nat.repr 2 ++ " packets received" ++ ", "
    ∧ arpCountText 3 = Nat.repr 3 ++ " ARP packets filtered" :=
  ⟨pluralization_phrases.2.2.1 5 (by decide),
    pluralization_phrases.2.2.2.2.2.1 2 (by decide),
    pluralization_phrases.2.2.2.2.2.2.2.2.1 3 (by decide)⟩

/-- Padding to a minimum width yields the maximum of the width and the
text length: minimum, never truncation. -/
theorem padRight_length (s : String) (w : Nat) :
    (padRight s w).length = max w s.length := by
  unfold padRight
  rw [String.length_append]
  show s.length + (List.replicate (w - s.length) ' ').length = max w s.length
  rw [List.length_replicate]
  omega

/-- An octet renders in at most three characters. -/
theorem octetStr_length_le (v : Nat) : (octetStr v).length ≤ 3 := by
  unfold octetStr
  dsimp only
  split
  · show (List.length [decDigit (v % 256)]) ≤ 3
    simp
  · split
    · show (List.length [decDigit (v % 256 / 10), decDigit (v % 256 % 10)]) ≤ 3
      simp
    · show (List.length [decDigit (v % 256 / 100), decDigit (v % 256 / 10 % 10),
        decDigit (v % 256 % 10)]) ≤ 3
      simp

/-- A dotted quad renders in at most fifteen characters. -/
theorem ipv4Show_length_le (n : Nat) : (ipv4Show n).length ≤ 15 := by
  unfold ipv4Show
  dsimp only
  have h1 := octetStr_length_le (n % 2 ^ 32 / 2 ^ 24)
  have h2 := octetStr_length_le (n % 2 ^ 32 / 2 ^ 16 % 256)
  have h3 := octetStr_length_le (n % 2 ^ 32 / 2 ^ 8 % 256)
  have h4 := octetStr_length_le (n % 2 ^ 32 % 256)
  have hdot : ("." : String).length = 1 := rfl
  simp only [String.length_append, hdot]
  omega

/-- One MAC octet renders in exactly two characters. -/
theorem hexByte_length (n : Nat) : (hexByte n).length = 2 := rfl

/-- A MAC address renders in exactly seventeen characters. -/
theorem macShow_length (m : MacAddr) : (macShow m).length = 17 := by
  unfold macShow
  have hc : (":" : String).length = 1 := rfl
  simp only [String.length_append, hexByte_length, hc]

/-- The width fold with any seed computes the maximum of the seed and the
longest present hostname. -/
theorem foldl_hostname_max :
    ∀ (l : List TargetDetails) (a : Nat),
      l.foldl (fun acc detail =>
        match detail.hostname with
        | some h => if h.length > acc then h.length else acc
        | none => acc) a = max a (longestHostname l) := by
  intro l
  induction l with
  | nil => intro a; simp [longestHostname]
  | cons d t ih =>
    intro a
    rcases hd : d.hostname with _ | h
    · simp only [List.foldl_cons, hd]
      rw [ih a]
      have : longestHostname (d :: t) = longestHostname t := by
        unfold longestHostname
        simp [List.filterMap_cons, hd]
      rw [this]
    · simp only [List.foldl_cons, hd]
      have hstep : (if h.length > a then h.length else a) = max a h.length := by
        split <;> omega
      rw [hstep, ih (max a h.length)]
      have : longestHostname (d :: t) = max h.length (longestHostname t) := by
        unfold longestHostname
        simp [List.filterMap_cons, hd]
      rw [this, Nat.max_assoc]

/-- The width fold with any seed computes the maximum of the seed and the
longest present vendor. -/
theorem foldl_vendor_max :
    ∀ (l : List TargetDetails) (a : Nat),
      l.foldl (fun acc detail =>
        match detail.vendor with
        | some v => if v.length > acc then v.length else acc
        | none => acc) a = max a (longestVendor l) := by
  intro l
  induction l with
  | nil => intro a; simp [longestVendor]
  | cons d t ih =>
    intro a
    rcases hd : d.vendor with _ | v
    · simp only [List.foldl_cons, hd]
      rw [ih a]
      have : longestVendor (d :: t) = longestVendor t := by
        unfold longestVendor
        simp [List.filterMap_cons, hd]
      rw [this]
    · simp only [List.foldl_cons, hd]
      have hstep : (if v.length > a then v.length else a) = max a v.length := by
        split <;> omega
      rw [hstep, ih (max a v.length)]
      have : longestVendor (d :: t) = max v.length (longestVendor t) := by
        unfold longestVendor
        simp [List.filterMap_cons, hd]
      rw [this, Nat.max_assoc]

/-- A fold of max over a list is permutation-invariant. -/
theorem foldr_max_perm : ∀ {xs ys : List Nat}, xs.Perm ys →
    xs.foldr max 0 = ys.foldr max 0 := by
  intro xs ys h
  induction h with
  | nil => rfl
  | cons x h ih => simp only [List.foldr_cons, ih]
  | swap x y t => simp only [List.foldr_cons]; rw [Nat.max_left_comm]
  | trans h1 h2 ih1 ih2 => rw [ih1, ih2]

/-- The longest present hostname is permutation-invariant. -/
theorem longestHostname_perm {l m : List TargetDetails} (h : l.Perm m) :
    longestHostname l = longestHostname m := by
  unfold longestHostname
  exact foldr_max_perm ((h.filterMap _).map _)

/-- The longest present vendor is permutation-invariant. -/
theorem longestVendor_perm {l m : List TargetDetails} (h : l.Perm m) :
    longestVendor l = longestVendor m := by
  unfold longestVendor
  exact foldr_max_perm ((h.filterMap _).map _)

/-- Every member of a list is bounded by its max fold. -/
theorem le_foldr_max : ∀ (xs : List Nat) (x : Nat), x ∈ xs → x ≤ xs.foldr max 0 := by
  intro xs
  induction xs with
  | nil => intro x hx; simp at hx
  | cons y t ih =>
    intro x hx
    rcases List.mem_cons.mp hx with rfl | hx
    · exact Nat.le_max_left _ _
    · exact le_trans (ih x hx) (Nat.le_max_right _ _)

/-- A present hostname is no longer than the longest present hostname. -/
theorem le_longestHostname (l : List TargetDetails) (d : TargetDetails) (h : String)
    (hd : d ∈ l) (hh : d.hostname = some h) : h.length ≤ longestHostname l := by
  have hmem : h ∈ l.filterMap TargetDetails.hostname :=
    List.mem_filterMap.mpr ⟨d, hd, hh⟩
  exact le_foldr_max _ _ (List.mem_map_of_mem _ hmem)

/-- A present vendor is no longer than the longest present vendor. -/
theorem le_longestVendor (l : List TargetDetails) (d : TargetDetails) (v : String)
    (hd : d ∈ l) (hv : d.vendor = some v) : v.length ≤ longestVendor l := by
  have hmem : v ∈ l.filterMap TargetDetails.vendor :=
    List.mem_filterMap.mpr ⟨d, hd, hv⟩
  exact le_foldr_max _ _ (List.mem_map_of_mem _ hmem)

/-- The hostname cell of a listed target fits the hostname column. -/
theorem hostnameCell_length_le (t : List TargetDetails) (d : TargetDetails)
    (o : ScanOptions) (hd : d ∈ t) :
    (hostnameCell d o).length ≤ max 15 (longestHostname t) := by
  rcases hh : d.hostname with _ | h
  · have : hostnameCell d o = if !o.resolve_hostname then "(disabled)" else "" := by
      simp [hostnameCell, hh]
    rw [this]
    split
    · exact le_trans (by decide) (Nat.le_max_left _ _)
    · exact le_trans (by decide) (Nat.le_max_left _ _)
  · have : hostnameCell d o = h := by simp [hostnameCell, hh]
    rw [this]
    exact le_trans (le_longestHostname t d h hd hh) (Nat.le_max_right _ _)

/-- The vendor cell of a listed target fits the vendor column. -/
theorem vendorCell_length_le (t : List TargetDetails) (d : TargetDetails)
    (hd : d ∈ t) : (vendorCell d).length ≤ max 15 (longestVendor t) := by
  rcases hv : d.vendor with _ | v
  · have : vendorCell d = "" := by simp [vendorCell, hv]
    rw [this]
    exact le_trans (by decide) (Nat.le_max_left _ _)
  · have : vendorCell d = v := by simp [vendorCell, hv]
    rw [this]
    exact le_trans (le_longestVendor t d v hd hv) (Nat.le_max_right _ _)

/-- C6: the hostname and vendor column widths computed by
display_scan_results equal max(15, longest present value); the header
cells and every data-row cell are padded to exactly these widths (so the
header row has fixed length 45 plus the two widths and every data row has
fixed length 46 plus the two widths, the one-character difference being a
quirk of the header literal's MAC cell); and padding is a minimum, never a
truncation. -/
theorem display_column_widths (t : List TargetDetails) (o : ScanOptions)
    (wh wv : Nat) (hwh : wh = hostnameLenFold (sortTargets t))
    (hwv : wv = vendorLenFold (sortTargets t)) :
    wh = max 15 (longestHostname t)
    ∧ wv = max 15 (longestVendor t)
    ∧ (padRight "Hostname" wh).length = wh
    ∧ (padRight "Vendor" wv).length = wv
    ∧ (headerRow wh wv).length = 45 + wh + wv
    ∧ (∀ d ∈ t, (padRight (hostnameCell d o) wh).length = wh
        ∧ (padRight (vendorCell d) wv).length = wv)
    ∧ (∀ d ∈ t, (dataRow wh wv o d).length = 46 + wh + wv)
    ∧ (∀ s w, ∃ fill, padRight s w = s ++ fill
        ∧ (padRight s w).length = max w s.length) := by
  have hwh2 : wh = max 15 (longestHostname t) := by
    rw [hwh]
    have he : hostnameLenFold (sortTargets t)
        = max 15 (longestHostname (sortTargets t)) := foldl_hostname_max (sortTargets t) 15
    rw [he, longestHostname_perm (sortTargets_perm t)]
  have hwv2 : wv = max 15 (longestVendor t) := by
    rw [hwv]
    have he : vendorLenFold (sortTargets t)
        = max 15 (longestVendor (sortTargets t)) := foldl_vendor_max (sortTargets t) 15
    rw [he, longestVendor_perm (sortTargets_perm t)]
  have hwh15 : 15 ≤ wh := by rw [hwh2]; omega
  have hwv15 : 15 ≤ wv := by rw [hwv2]; omega
  have hhp : (padRight "Hostname" wh).length = wh := by
    rw [padRight_length]
    have : ("Hostname" : String).length = 8 := rfl
    omega
  have hvp : (padRight "Vendor" wv).length = wv := by
    rw [padRight_length]
    have : ("Vendor" : String).length = 6 := rfl
    omega
  refine ⟨hwh2, hwv2, hhp, hvp, ?_, ?_, ?_, ?_⟩
  · unfold headerRow
    simp only [String.length_append, hhp, hvp]
    have e1 : ("| IPv4            | MAC               | " : String).length = 40 := rfl
    have e2 : (" | " : String).length = 3 := rfl
    have e3 : (" |" : String).length = 2 := rfl
    omega
  · intro d hd
    have hc : (hostnameCell d o).length ≤ wh := by
      rw [hwh2]; exact hostnameCell_length_le t d o hd
    have vc : (vendorCell d).length ≤ wv := by
      rw [hwv2]; exact vendorCell_length_le t d hd
    constructor
    · rw [padRight_length]; omega
    · rw [padRight_length]; omega
  · intro d hd
    have hc : (hostnameCell d o).length ≤ wh := by
      rw [hwh2]; exact hostnameCell_length_le t d o hd
    have vc : (vendorCell d).length ≤ wv := by
      rw [hwv2]; exact vendorCell_length_le t d hd
    have hip := ipv4Show_length_le d.ipv4
    have hmac := macShow_length d.mac
    unfold dataRow
    simp only [String.length_append, padRight_length]
    have e0 : ("| " : String).length = 2 := rfl
    have e2 : (" | " : String).length = 3 := rfl
    have e3 : (" |" : String).length = 2 := rfl
    omega
  · intro s w
    exact ⟨String.mk (List.replicate (w - s.length) ' '), rfl, padRight_length s w⟩

/-- Witness for C6: a single target with a 20-character hostname widens
the hostname column to 20 while the vendor column stays at 15, and the
header row length follows the computed widths. -/
theorem display_column_widths_witness :
    (headerRow 20 15).length = 45 + 20 + 15 :=
  (display_column_widths
    [⟨1, ⟨0, 0, 0, 0, 0, 0⟩, some "12345678901234567890", none⟩]
    ⟨true⟩ 20 15 (by decide) (by decide)).2.2.2.2.1

/-- C7: the CSV export is a function of the target records alone, so no
summary field reaches it (any two summaries give the identical CSV text),
while the JSON and YAML exports both open with the three summary fields
packet_count, arp_count and duration_ms copied verbatim from the summary. -/
theorem csv_excludes_summary_json_yaml_include :
    (∀ (s1 s2 : ResponseSummary) (t : List TargetDetails),
        export_to_csv s1 t = export_to_csv s2 t)
    ∧ (∀ (s : ResponseSummary) (t : List TargetDetails), ∃ rest,
        export_to_json s t = ExportOutcome.text
          ("\x7b\"packet_count\":" ++ Nat.repr s.packet_count ++
            ",\"arp_count\":" ++ Nat.repr s.arp_count ++
            ",\"duration_ms\":" ++ Nat.repr s.duration_ms ++ rest))
    ∧ (∀ (s : ResponseSummary) (t : List TargetDetails), ∃ rest,
        export_to_yaml s t = ExportOutcome.text
          ("---\npacket_count: " ++ Nat.repr s.packet_count ++
            "\narp_count: " ++ Nat.repr s.arp_count ++
            "\nduration_ms: " ++ Nat.repr s.duration_ms ++ rest)) := by
  refine ⟨fun s1 s2 t => rfl, ?_, ?_⟩
  · intro s t
    refine ⟨",\"results\":[" ++ String.intercalate ","
        (((sortTargets t).map toSerializableItem).map jsonItem) ++ "]\x7d", ?_⟩
    have h0 : export_to_json s t = ExportOutcome.text
        (jsonOfGlobal (get_serializable_result s (sortTargets t))) := rfl
    rw [h0]
    refine congrArg ExportOutcome.text ?_
    unfold jsonOfGlobal get_serializable_result
    dsimp only
    simp [String.append_assoc]
  · intro s t
    refine ⟨"\nresults:\n" ++
        String.join (((sortTargets t).map toSerializableItem).map yamlItem), ?_⟩
    have h0 : export_to_yaml s t = ExportOutcome.text
        (yamlOfGlobal (get_serializable_result s (sortTargets t))) := rfl
    rw [h0]
    refine congrArg ExportOutcome.text ?_
    unfold yamlOfGlobal get_serializable_result
    dsimp only
    simp [String.append_assoc]

/-- C8 counterexample: with an empty target list the CSV writer serializes
no record and therefore never emits the header row, so the output is the
empty string and does not begin with the header. -/
theorem csv_empty_counterexample :
    export_to_csv ⟨3, 2, 700⟩ [] = ExportOutcome.text ""
    ∧ csvHeader.isPrefixOf "" = false := by
  constructor
  · rfl
  · decide

/-- C8 (amended): for every summary and every nonempty target list the
CSV text begins with the header row derived from the canonical record
field names (ipv4, mac, hostname, vendor) followed by one delimited row
per target record; for the empty list the output is empty, without a
header. -/
theorem csv_header_and_rows (s : ResponseSummary) (t : List TargetDetails)
    (hne : t ≠ []) :
    export_to_csv s t = ExportOutcome.text
        ("ipv4,mac,hostname,vendor\n" ++
          String.join (((sortTargets t).map toSerializableItem).map csvRow))
    ∧ ((sortTargets t).map toSerializableItem).length = t.length := by
  have hs : sortTargets t ≠ [] := by
    intro h
    have hp := sortTargets_perm t
    rw [h] at hp
    exact hne (List.Perm.eq_nil hp.symm)
  obtain ⟨x, xs, hx⟩ : ∃ x xs, sortTargets t = x :: xs := by
    rcases hsort : sortTargets t with _ | ⟨x, xs⟩
    · exact absurd hsort hs
    · exact ⟨x, xs, rfl⟩
  constructor
  · show ExportOutcome.text
        (csvStringOfItems ((sortTargets t).map toSerializableItem)) = _
    rw [hx]
    rfl
  · rw [List.length_map]
    exact (sortTargets_perm t).length_eq

/-- Witness for C8: a one-target list yields the header row plus one
record row. -/
theorem csv_header_and_rows_witness :
    export_to_csv ⟨0, 0, 0⟩ [⟨1, ⟨0, 0, 0, 0, 0, 0⟩, none, none⟩] = ExportOutcome.text
        ("ipv4,mac,hostname,vendor\n" ++
          String.join (((sortTargets [⟨1, ⟨0, 0, 0, 0, 0, 0⟩, none, none⟩]).map
            toSerializableItem).map csvRow))
    ∧ ((sortTargets [⟨1, ⟨0, 0, 0, 0, 0, 0⟩, none, none⟩]).map
        toSerializableItem).length
      = ([⟨1, ⟨0, 0, 0, 0, 0, 0⟩, none, none⟩] : List TargetDetails).length :=
  csv_header_and_rows ⟨0, 0, 0⟩ [⟨1, ⟨0, 0, 0, 0, 0, 0⟩, none, none⟩] (by decide)

/-- C10: the serialization-failure branches of the three exports are
unreachable: the canonical record structure carries only plain strings
and unsigned integers, for which the modelled serializers are total, so
every export call returns the serialized text and never terminates the
process. -/
theorem export_never_fails (s : ResponseSummary) (t : List TargetDetails) :
    (∃ out, export_to_json s t = ExportOutcome.text out)
    ∧ (∃ out, export_to_yaml s t = ExportOutcome.text out)
    ∧ (∃ out, export_to_csv s t = ExportOutcome.text out) :=
  ⟨⟨_, rfl⟩, ⟨_, rfl⟩, ⟨_, rfl⟩⟩
